import Mathlib

/-!
Verification of the anti-debugging primitives in
`Security/C/Debugger.c` of the VDS-NC reader example application.

The C file defines two functions:

* `disable_gdb` — under a `DEBUG` build it returns immediately; otherwise it
  issues the raw AArch64 supervisor call `svc #0x80` with registers
  `x0 = 31 (PT_DENY_ATTACH), x1 = x2 = x3 = 0, x16 = 26 (ptrace)`.
* `isBeingDebugged_sysctl` — zeroes `info.kp_proc.p_flag`, builds the
  descriptor `name = {CTL_KERN, KERN_PROC, KERN_PROC_PID, getpid()}`,
  calls `sysctl(name, 4, &info, &size, NULL, 0)`, returns `false` when the
  call fails, and otherwise returns `(info.kp_proc.p_flag & P_TRACED) != 0`.

The embedding treats the operating system as an oracle: a `SysctlBehaviour`
records the process id returned by `getpid()`, the status code `sysctl`
returns, and the `p_flag` value (if any) the kernel stores into the caller's
buffer.  Each embedded function returns its C result together with the list
of OS calls it issued, so that claims about which requests reach the kernel
are ordinary equalities on the trace.
-/

/-- Darwin `sys/sysctl.h`: top-level identifier of the kernel domain. -/
def CTL_KERN : Int := 1

/-- Darwin `sys/sysctl.h`: the process-information sub-domain of `CTL_KERN`. -/
def KERN_PROC : Int := 14

/-- Darwin `sys/sysctl.h`: select a process by its process id. -/
def KERN_PROC_PID : Int := 1

/-- Darwin `sys/proc.h`: the bit of `p_flag` set while the process is traced. -/
def P_TRACED : Nat := 0x00000800

/-- Darwin `sys/ptrace.h`: the `ptrace` request denying future attachment. -/
def PT_DENY_ATTACH : Int := 31

/-- Darwin syscall number of `ptrace`, loaded into `x16` by the inline asm. -/
def SYS_ptrace : Int := 26

/-- The `extern_proc` field the C code touches: the process status flags
`kp_proc.p_flag`, modelled as the 32-bit pattern of the C `int`. -/
structure ExternProc where
  p_flag : Nat
deriving DecidableEq, Repr

/-- The slice of `struct kinfo_proc` the C code reads or writes. -/
structure KinfoProc where
  kp_proc : ExternProc
deriving DecidableEq, Repr

/-- One request issued to the operating system.

* `sysctlCall name namelen oldpFlagAtCall newpIsNull newlen` records a call
  `sysctl(name, namelen, &info, &size, newp, newlen)`: the descriptor array,
  its length, the value `info.kp_proc.p_flag` holds at the moment of the
  call, whether `newp` is the null pointer, and `newlen`.
* `svc x0 x1 x2 x3 x16` records the raw supervisor call `svc #0x80` with the
  given register contents. -/
inductive OSCall where
  | sysctlCall (name : List Int) (namelen : Nat) (oldpFlagAtCall : Nat)
      (newpIsNull : Bool) (newlen : Nat)
  | svc (x0 x1 x2 x3 x16 : Int)
deriving DecidableEq, Repr

/-- The oracle describing how the OS answers the single `sysctl` request:
`pid` is what `getpid()` returns, `ret` the status `sysctl` returns, and
`writes` the `p_flag` value the kernel stores into the caller's buffer
(`none` when the kernel leaves the field untouched, e.g. on failure). -/
structure SysctlBehaviour where
  pid : Int
  ret : Int
  writes : Option Nat
deriving DecidableEq, Repr

/-- Embedding of `isBeingDebugged_sysctl`.  `stale` is the arbitrary bit
pattern the uninitialised stack variable `info` starts with; the C code
overwrites the flag field with `0` before issuing the query.  Returns the
C function's boolean result paired with the trace of OS calls issued. -/
def isBeingDebugged_sysctl (stale : Nat) (os : SysctlBehaviour) :
    Bool × List OSCall :=
  let info : KinfoProc := { kp_proc := { p_flag := stale } }
  let info : KinfoProc := { info with kp_proc := { p_flag := 0 } }
  let name : List Int := [CTL_KERN, KERN_PROC, KERN_PROC_PID, os.pid]
  let call := OSCall.sysctlCall name 4 info.kp_proc.p_flag true 0
  let ret : Int := os.ret
  let info : KinfoProc :=
    match os.writes with
    | some v => { kp_proc := { p_flag := v } }
    | none => info
  if ret ≠ 0 then
    (false, [call])
  else
    (((info.kp_proc.p_flag &&& P_TRACED) != 0), [call])

/-- Variant of `isBeingDebugged_sysctl` without the early `return false` on
`sysctl` failure: it always falls through to the `P_TRACED` test.  Used only
to compare the two formulations on the failure path. -/
def isBeingDebugged_noEarlyReturn (stale : Nat) (os : SysctlBehaviour) :
    Bool × List OSCall :=
  let info : KinfoProc := { kp_proc := { p_flag := stale } }
  let info : KinfoProc := { info with kp_proc := { p_flag := 0 } }
  let name : List Int := [CTL_KERN, KERN_PROC, KERN_PROC_PID, os.pid]
  let call := OSCall.sysctlCall name 4 info.kp_proc.p_flag true 0
  let info : KinfoProc :=
    match os.writes with
    | some v => { kp_proc := { p_flag := v } }
    | none => info
  (((info.kp_proc.p_flag &&& P_TRACED) != 0), [call])

/-- Embedding of `disable_gdb`.  `DEBUG` is the build-time flag tested by the
preprocessor conditional; `ptraceOutcome` is whatever status the kernel gives
the supervisor call.  The C function returns `void` and never looks at the
outcome, so the embedding returns only the trace of OS calls and ignores
`ptraceOutcome`. -/
def disable_gdb (DEBUG : Bool) (ptraceOutcome : Int) : List OSCall :=
  if DEBUG then
    []
  else
    [OSCall.svc PT_DENY_ATTACH 0 0 0 SYS_ptrace]

/-- Trace of `n` consecutive invocations of `disable_gdb`, the kernel
answering the `k`-th supervisor call with `outcomes[k]`. -/
def disable_gdb_repeated (DEBUG : Bool) (outcomes : List Int) : List OSCall :=
  outcomes.foldr (fun r acc => disable_gdb DEBUG r ++ acc) []

/-- Target architectures relevant to the build of `Debugger.c`. -/
inductive Arch where
  | aarch64
  | x86_64
  | other
deriving DecidableEq, Repr

/-- Per-architecture availability of `disable_gdb`.  The function body is a
GCC-style `__asm` block written in AArch64 mnemonics against AArch64
registers (`x0..x3`, `x16`, `svc #0x80`), and the source contains no
architecture conditional offering an alternative path, so a translation of
the source exists only for `Arch.aarch64`; on any other architecture the
assembly is rejected and the build fails, yielding no function at all. -/
def disable_gdb_impl (a : Arch) : Option (Bool → Int → List OSCall) :=
  match a with
  | .aarch64 => some disable_gdb
  | _ => none

/-- Is an OS call a pure retrieval, i.e. a `sysctl` call whose new-value
pointer is null and whose new-value length is zero? -/
def isReadOnlyQuery : OSCall → Bool
  | .sysctlCall _ _ _ newpIsNull newlen => newpIsNull && newlen == 0
  | .svc _ _ _ _ _ => false

/-- The `p_flag` value the caller's buffer holds at the moment a `sysctl`
call is issued, when the OS call is one. -/
def oldpFlagOf : OSCall → Option Nat
  | .sysctlCall _ _ f _ _ => some f
  | .svc _ _ _ _ _ => none

/-- C1: whenever `sysctl` reports failure (nonzero status), the function
returns `false`: no error escapes and the failure path never yields `true`. -/
theorem C1_sysctl_failure_returns_false (stale : Nat) (os : SysctlBehaviour)
    (h : os.ret ≠ 0) : (isBeingDebugged_sysctl stale os).1 = false := by
  simp [isBeingDebugged_sysctl, h]

/-- Witness for C1 at a concrete failing oracle. -/
theorem C1_sysctl_failure_returns_false_witness :
    (⟨42, -1, none⟩ : SysctlBehaviour).ret ≠ 0 ∧
      (isBeingDebugged_sysctl 5 ⟨42, -1, none⟩).1 = false :=
  ⟨by decide, C1_sysctl_failure_returns_false 5 ⟨42, -1, none⟩ (by decide)⟩

/-- C2: whenever `sysctl` succeeds (zero status) and the kernel wrote the
flag value `v` into the buffer, the function returns `true` iff the
`P_TRACED` bit of `v` is set. -/
theorem C2_traced_bit_decides_result (stale : Nat) (os : SysctlBehaviour)
    (v : Nat) (hret : os.ret = 0) (hw : os.writes = some v) :
    (isBeingDebugged_sysctl stale os).1 = true ↔ v &&& P_TRACED ≠ 0 := by
  simp [isBeingDebugged_sysctl, hret, hw]

/-- Witness for C2: a traced flag word (bit 0x800 set) makes the function
return `true`. -/
theorem C2_traced_bit_decides_result_witness :
    (⟨7, 0, some 0x4800⟩ : SysctlBehaviour).ret = 0 ∧
      (⟨7, 0, some 0x4800⟩ : SysctlBehaviour).writes = some 0x4800 ∧
      ((isBeingDebugged_sysctl 0 ⟨7, 0, some 0x4800⟩).1 = true ↔
        0x4800 &&& P_TRACED ≠ 0) :=
  ⟨rfl, rfl, C2_traced_bit_decides_result 0 ⟨7, 0, some 0x4800⟩ 0x4800 rfl rfl⟩

/-- C3: `disable_gdb` issues the attach-deny supervisor call iff `DEBUG` is
unset: a debug build returns at once with no OS request, and a release build
issues exactly the `ptrace(PT_DENY_ATTACH, 0, 0, 0)` supervisor call as its
one and only action. -/
theorem C3_deny_iff_release (DEBUG : Bool) (r : Int) :
    disable_gdb DEBUG r =
      if DEBUG then [] else [OSCall.svc PT_DENY_ATTACH 0 0 0 SYS_ptrace] := by
  rfl

/-- C5: every run hands `sysctl` — and no debugger-specific facility — the
descriptor `[CTL_KERN, KERN_PROC, KERN_PROC_PID, pid]` of length 4. -/
theorem C5_query_descriptor (stale : Nat) (os : SysctlBehaviour) :
    (isBeingDebugged_sysctl stale os).2 =
      [OSCall.sysctlCall [CTL_KERN, KERN_PROC, KERN_PROC_PID, os.pid] 4 0
        true 0] := by
  unfold isBeingDebugged_sysctl
  cases os.writes <;> by_cases h : os.ret ≠ 0 <;> simp [h]

/-- C6: the buffer's flag field holds `0` at the moment the query is issued,
and the result never depends on the stale pre-initialisation content of the
stack buffer, however the kernel populates it. -/
theorem C6_flag_zeroed_before_query (s₁ s₂ : Nat) (os : SysctlBehaviour) :
    ((isBeingDebugged_sysctl s₁ os).2.map oldpFlagOf = [some 0]) ∧
      isBeingDebugged_sysctl s₁ os = isBeingDebugged_sysctl s₂ os := by
  unfold isBeingDebugged_sysctl oldpFlagOf
  cases os.writes <;> by_cases h : os.ret ≠ 0 <;> simp [h]

/-- C7: `disable_gdb` is fire-and-forget: its behaviour is identical
whatever status the kernel gives the supervisor call, and any number of
repeated invocations completes, issuing one supervisor call per invocation
in a release build and none in a debug build. -/
theorem C7_fire_and_forget (DEBUG : Bool) (r₁ r₂ : Int) (outcomes : List Int) :
    disable_gdb DEBUG r₁ = disable_gdb DEBUG r₂ ∧
      (disable_gdb_repeated DEBUG outcomes).length =
        outcomes.length * (if DEBUG then 0 else 1) := by
  refine ⟨rfl, ?_⟩
  induction outcomes with
  | nil => simp [disable_gdb_repeated]
  | cons x xs ih =>
      cases DEBUG <;>
        simp_all [disable_gdb_repeated, disable_gdb, Nat.succ_mul]

/-- C8: every OS call `isBeingDebugged_sysctl` issues is a read-only
retrieval: a `sysctl` call with null new-value pointer and zero new-value
length, never a state-changing request. -/
theorem C8_read_only_query (stale : Nat) (os : SysctlBehaviour) :
    ((isBeingDebugged_sysctl stale os).2.all isReadOnlyQuery) = true := by
  unfold isBeingDebugged_sysctl isReadOnlyQuery
  cases os.writes <;> by_cases h : os.ret ≠ 0 <;> simp [h]

/-- C9: on the failure path in which the kernel leaves the buffer untouched,
the early `return false` is redundant: the function agrees with the variant
that falls through and tests `P_TRACED` on the pre-zeroed flag field. -/
theorem C9_early_return_redundant (stale : Nat) (os : SysctlBehaviour)
    (hret : os.ret ≠ 0) (hw : os.writes = none) :
    isBeingDebugged_sysctl stale os = isBeingDebugged_noEarlyReturn stale os := by
  simp [isBeingDebugged_sysctl, isBeingDebugged_noEarlyReturn, hret, hw]

/-- Witness for C9 at a concrete failing oracle. -/
theorem C9_early_return_redundant_witness :
    (⟨9, 1, none⟩ : SysctlBehaviour).ret ≠ 0 ∧
      (⟨9, 1, none⟩ : SysctlBehaviour).writes = none ∧
      isBeingDebugged_sysctl 3 ⟨9, 1, none⟩ =
        isBeingDebugged_noEarlyReturn 3 ⟨9, 1, none⟩ :=
  ⟨by decide, rfl, C9_early_return_redundant 3 ⟨9, 1, none⟩ (by decide) rfl⟩

/-- C10: the boolean result is a function of nothing but the `sysctl` status
code and, on success, the flag value the kernel wrote: two runs agreeing on
those agree on the result, whatever the pid or stale buffer contents. -/
theorem C10_deterministic_in_os_response (s₁ s₂ : Nat)
    (os₁ os₂ : SysctlBehaviour) (hret : os₁.ret = os₂.ret)
    (hw : os₁.ret = 0 → os₁.writes = os₂.writes) :
    (isBeingDebugged_sysctl s₁ os₁).1 = (isBeingDebugged_sysctl s₂ os₂).1 := by
  unfold isBeingDebugged_sysctl
  by_cases h : os₁.ret = 0
  · have hw' := hw h
    rw [hw']
    cases os₂.writes <;> simp [h, ← hret]
  · simp [h, ← hret]

/-- Witness for C10: runs with different pids and stale contents but the
same kernel answer coincide. -/
theorem C10_deterministic_in_os_response_witness :
    (⟨1, 0, some 0x800⟩ : SysctlBehaviour).ret =
        (⟨2, 0, some 0x800⟩ : SysctlBehaviour).ret ∧
      (isBeingDebugged_sysctl 11 ⟨1, 0, some 0x800⟩).1 =
        (isBeingDebugged_sysctl 99 ⟨2, 0, some 0x800⟩).1 :=
  ⟨rfl, C10_deterministic_in_os_response 11 99 ⟨1, 0, some 0x800⟩
    ⟨2, 0, some 0x800⟩ rfl (fun _ => rfl)⟩

/-- C4 counterexample: on `x86_64`, an architecture lacking the AArch64
supervisor-call interface the assembly targets, the source provides no
function at all — the build fails instead of degrading to a no-op. -/
theorem C4_no_fallback_counterexample :
    disable_gdb_impl Arch.x86_64 = none ∧
      ¬ (∀ a : Arch, a ≠ Arch.aarch64 →
        ∃ f, disable_gdb_impl a = some f ∧ ∀ d r, f d r = []) := by
  refine ⟨rfl, fun h => ?_⟩
  obtain ⟨f, hf, -⟩ := h Arch.x86_64 (by decide)
  exact Option.noConfusion (hf.symm.trans rfl)

/-- C4 amended: `disable_gdb` exists only for AArch64, where it is exactly
the embedded function; on every other architecture the inline assembly is
rejected and no translation exists, so the operation does not degrade to a
no-op — the build fails. -/
theorem C4_aarch64_only :
    disable_gdb_impl Arch.aarch64 = some disable_gdb ∧
      disable_gdb_impl Arch.x86_64 = none ∧
      disable_gdb_impl Arch.other = none :=
  ⟨rfl, rfl, rfl⟩
